import Mathlib

/-!
Formal model of `src/verification/verify_studio_accessibility_final.py`.

The script drives a headless browser through a fixed sequence of Playwright
calls against a local web application, asserts two accessibility properties,
takes a full-page screenshot, and reports success or failure on stdout with
the corresponding process exit status.

We model the external world (the Playwright library together with the page
under test) as an `Env` that decides, for each library call, whether it
succeeds or raises an exception, and what the accessibility state of the
page is.  The script itself is embedded as a function from `Env` to an
execution result that records, in order, the completed steps, the printed
lines, the number of browser processes acquired and released, and the
filesystem writes performed.  Raised exceptions are tagged with whether
they derive from Python `Exception` (and hence are caught by the top-level
handler) or not (for example `KeyboardInterrupt`).
-/

/-- A raised Python exception: either derived from `Exception` (and hence
caught by the top-level `except Exception` handler) or not derived from it
(for example `KeyboardInterrupt` or `SystemExit`), carrying its description. -/
inductive ExcKind where
  | exc (msg : String)
  | nonExc (msg : String)
deriving DecidableEq, Repr

/-- The description (`str(e)`) of the raised exception. -/
def ExcKind.msg : ExcKind → String
  | .exc m => m
  | .nonExc m => m

/-- The steps of `verify_studio_accessibility`, in source order. -/
inductive StepId where
  | launch
  | newContext
  | newPage
  | addInitScript
  | gotoStudio
  | waitIdle
  | screenshot
  | assertTipVisible
  | clickTheory
  | assertNoteCVisible
  | assertNoteCPressed
  | closeBrowser
deriving DecidableEq, Repr

/-- A line printed to standard output by the script. -/
inductive Line where
  | verifiedTip
  | verifiedPiano
  | success
  | failure (msg : String)
deriving DecidableEq, Repr

/-- The actual text of each printed line, as in the Python source. -/
def Line.render : Line → String
  | .verifiedTip => "Verified: Production Tip button has correct ARIA label"
  | .verifiedPiano => "Verified: Piano Key (C) exists and has correct attributes"
  | .success => "SUCCESS: Accessibility verification passed."
  | .failure msg => "FAILURE: " ++ msg

/-- Whether a printed line is the FAILURE line of the top-level handler. -/
def Line.isFailure : Line → Bool
  | .failure _ => true
  | _ => false

/-- The fixed target URL of the navigation step. -/
def studioUrl : String := "http://localhost:3001/studio"

/-- The fixed absolute path of the screenshot artifact. -/
def screenshotPath : String := "/app/verification/studio_a11y.png"

/-- The pre-navigation init script that bypasses onboarding. -/
def initScriptText : String :=
  "localStorage.setItem(\x27harmoniq-studio-onboarding\x27, \x27true\x27);"

/-- The accessible label of the production-tip button. -/
def tipButtonLabel : String := "Get new production tip"

/-- The accessible label of the piano key, matched exactly. -/
def noteCLabel : String := "Note C"

/-- Description of the assertion error raised when the tip button is not
visible (the text itself is generated by Playwright; its exact content is
irrelevant to the claims, only that it is embedded in the FAILURE line). -/
def tipVisibleFailMsg : String :=
  "Locator expected to be visible: get_by_label(\"Get new production tip\")"

/-- Description of the assertion error raised when no element labeled
Note C is visible. -/
def noteCVisibleFailMsg : String :=
  "Locator expected to be visible: get_by_label(\"Note C\", exact=True)"

/-- Description of the assertion error raised when the aria-pressed
attribute of the Note C element is not the string false. -/
def noteCPressedFailMsg : String :=
  "Locator expected to have attribute aria-pressed with value false"

/-- The environment: for each Playwright call, `none` means the call
succeeds and `some k` means it raises `k`; the remaining fields are the
accessibility state of the page under test, which decides the outcome of
the three `expect` assertions, and the abstract content of the full-page
screenshot image. -/
structure Env where
  launchRes : Option ExcKind
  newContextRes : Option ExcKind
  newPageRes : Option ExcKind
  addInitScriptRes : Option ExcKind
  gotoRes : Option ExcKind
  waitIdleRes : Option ExcKind
  screenshotRes : Option ExcKind
  screenshotData : Nat
  tipButtonVisible : Bool
  theoryClickRes : Option ExcKind
  noteCVisible : Bool
  noteCAriaPressed : Option String
deriving DecidableEq, Repr

/-- Observable execution state: completed steps in order, printed lines in
order, browser processes acquired and released, whether the launched
browser is still open, and the filesystem writes (path, content) in order. -/
structure St where
  events : List StepId
  output : List Line
  launched : Nat
  terminated : Nat
  browserOpen : Bool
  writes : List (String × Nat)
deriving DecidableEq, Repr

/-- The state at entry of the `with sync_playwright()` block. -/
def St.init : St :=
  { events := [], output := [], launched := 0, terminated := 0,
    browserOpen := false, writes := [] }

/-- The body of the `with sync_playwright() as p:` block of
`verify_studio_accessibility`, translated line by line from the source.
It returns the final state on normal completion, or the raising step, the
exception and the state at the moment of the raise. -/
def scriptBody (env : Env) : Except (StepId × ExcKind × St) St :=
  -- browser = p.chromium.launch(headless=True)
  match env.launchRes with
  | some k => .error (.launch, k, St.init)
  | none =>
  let st1 : St := { St.init with events := St.init.events ++ [.launch],
                                 launched := St.init.launched + 1,
                                 browserOpen := true }
  -- context = browser.new_context()
  match env.newContextRes with
  | some k => .error (.newContext, k, st1)
  | none =>
  let st2 : St := { st1 with events := st1.events ++ [.newContext] }
  -- page = context.new_page()
  match env.newPageRes with
  | some k => .error (.newPage, k, st2)
  | none =>
  let st3 : St := { st2 with events := st2.events ++ [.newPage] }
  -- page.add_init_script(initScriptText)
  match env.addInitScriptRes with
  | some k => .error (.addInitScript, k, st3)
  | none =>
  let st4 : St := { st3 with events := st3.events ++ [.addInitScript] }
  -- page.goto(studioUrl)
  match env.gotoRes with
  | some k => .error (.gotoStudio, k, st4)
  | none =>
  let st5 : St := { st4 with events := st4.events ++ [.gotoStudio] }
  -- page.wait_for_load_state("networkidle")
  match env.waitIdleRes with
  | some k => .error (.waitIdle, k, st5)
  | none =>
  let st6 : St := { st5 with events := st5.events ++ [.waitIdle] }
  -- page.screenshot(path=screenshotPath, full_page=True)
  match env.screenshotRes with
  | some k => .error (.screenshot, k, st6)
  | none =>
  let st7 : St := { st6 with events := st6.events ++ [.screenshot],
                             writes := st6.writes ++
                               [(screenshotPath, env.screenshotData)] }
  -- tip_button = page.get_by_label(tipButtonLabel); expect(tip_button).to_be_visible()
  match env.tipButtonVisible with
  | false => .error (.assertTipVisible, .exc tipVisibleFailMsg, st7)
  | true =>
  let st8 : St := { st7 with events := st7.events ++ [.assertTipVisible] }
  -- print of the first confirmation line
  let st9 : St := { st8 with output := st8.output ++ [.verifiedTip] }
  -- page.get_by_text("Theory").click()
  match env.theoryClickRes with
  | some k => .error (.clickTheory, k, st9)
  | none =>
  let st10 : St := { st9 with events := st9.events ++ [.clickTheory] }
  -- c_key = page.get_by_label(noteCLabel, exact=True); expect(c_key).to_be_visible()
  match env.noteCVisible with
  | false => .error (.assertNoteCVisible, .exc noteCVisibleFailMsg, st10)
  | true =>
  let st11 : St := { st10 with events := st10.events ++ [.assertNoteCVisible] }
  -- expect(c_key).to_have_attribute("aria-pressed", "false")
  if env.noteCAriaPressed = some "false" then
    let st12 : St := { st11 with events := st11.events ++ [.assertNoteCPressed] }
    -- print of the second confirmation line
    let st13 : St := { st12 with output := st12.output ++ [.verifiedPiano] }
    -- browser.close()
    .ok { st13 with events := st13.events ++ [.closeBrowser],
                    terminated := st13.terminated + 1,
                    browserOpen := false }
  else
    .error (.assertNoteCPressed, .exc noteCPressedFailMsg, st11)

/-- Outcome of `verify_studio_accessibility` as seen by the caller: either
normal return or a propagating exception, in both cases with the state
after the `with` block has been exited. -/
inductive ScriptOutcome where
  | normal (st : St)
  | raised (sid : StepId) (k : ExcKind) (st : St)
deriving DecidableEq, Repr

/-- Exiting the `with sync_playwright()` block stops Playwright, which
terminates the launched browser if it is still connected.  This runs on
every exit path of the block, normal or exceptional. -/
def stopPlaywright (st : St) : St :=
  if st.browserOpen then
    { st with terminated := st.terminated + 1, browserOpen := false }
  else st

/-- The function `verify_studio_accessibility` of the source: run the
block body, then unconditionally exit the `with` block. -/
def verify_studio_accessibility (env : Env) : ScriptOutcome :=
  match scriptBody env with
  | .ok st => .normal (stopPlaywright st)
  | .error (sid, k, st) => .raised sid k (stopPlaywright st)

/-- How the process terminates: a numeric exit status, or an uncaught
exception propagating out of the interpreter (the top-level handler only
catches exceptions derived from `Exception`). -/
inductive ExitStatus where
  | code (n : Nat)
  | uncaught (msg : String)
deriving DecidableEq, Repr

/-- Observable result of one process invocation. -/
structure RunResult where
  events : List StepId
  output : List Line
  launched : Nat
  terminated : Nat
  writes : List (String × Nat)
  exitStatus : ExitStatus
deriving DecidableEq, Repr

/-- The `__main__` block of the source: call
`verify_studio_accessibility()` inside `try`, print the SUCCESS line on
normal return (exit status 0), print the FAILURE line and exit with
status 1 on an exception derived from `Exception`, and let any other
exception propagate uncaught. -/
def mainRun (env : Env) : RunResult :=
  match verify_studio_accessibility env with
  | .normal st =>
      { events := st.events, output := st.output ++ [.success],
        launched := st.launched, terminated := st.terminated,
        writes := st.writes, exitStatus := .code 0 }
  | .raised _ (.exc msg) st =>
      { events := st.events, output := st.output ++ [.failure msg],
        launched := st.launched, terminated := st.terminated,
        writes := st.writes, exitStatus := .code 1 }
  | .raised _ (.nonExc msg) st =>
      { events := st.events, output := st.output,
        launched := st.launched, terminated := st.terminated,
        writes := st.writes, exitStatus := .uncaught msg }

/-- Overwriting file write: after the write, the path holds the new
content regardless of what the filesystem held there before. -/
def writeFile (fs : String → Option Nat) (p : String) (d : Nat) :
    String → Option Nat :=
  fun q => if q = p then some d else fs q

/-- The filesystem after performing a list of writes in order, starting
from an arbitrary initial filesystem. -/
def finalFS (fs : String → Option Nat) (ws : List (String × Nat)) :
    String → Option Nat :=
  ws.foldl (fun f pd => writeFile f pd.1 pd.2) fs

/-- In a list of steps, every occurrence of `b` is preceded by an
occurrence of `a`. -/
def precedesIn (l : List StepId) (a b : StepId) : Prop :=
  b ∈ l → a ∈ l ∧ l.indexOf a < l.indexOf b

/-- All Playwright calls succeed and the page has the expected
accessibility state: this is the environment of a fully successful run. -/
def Env.allOk (e : Env) : Prop :=
  e.launchRes = none ∧ e.newContextRes = none ∧ e.newPageRes = none ∧
  e.addInitScriptRes = none ∧ e.gotoRes = none ∧ e.waitIdleRes = none ∧
  e.screenshotRes = none ∧ e.tipButtonVisible = true ∧
  e.theoryClickRes = none ∧ e.noteCVisible = true ∧
  e.noteCAriaPressed = some "false"

/-- The full step sequence of a completely successful run, in order. -/
def fullOrder : List StepId :=
  [.launch, .newContext, .newPage, .addInitScript, .gotoStudio, .waitIdle,
   .screenshot, .assertTipVisible, .clickTheory, .assertNoteCVisible,
   .assertNoteCPressed, .closeBrowser]

/-- The observable state after an exception raised at the given step has
propagated out of the `with` block (so Playwright has already been
stopped), as a function of the raise site and the screenshot content:
the events are exactly the steps completed strictly before the raise
site. -/
def raisedState (sid : StepId) (d : Nat) : St :=
  match sid with
  | .launch =>
      { events := [], output := [], launched := 0, terminated := 0,
        browserOpen := false, writes := [] }
  | .newContext =>
      { events := [.launch], output := [], launched := 1, terminated := 1,
        browserOpen := false, writes := [] }
  | .newPage =>
      { events := [.launch, .newContext], output := [], launched := 1,
        terminated := 1, browserOpen := false, writes := [] }
  | .addInitScript =>
      { events := [.launch, .newContext, .newPage], output := [],
        launched := 1, terminated := 1, browserOpen := false, writes := [] }
  | .gotoStudio =>
      { events := [.launch, .newContext, .newPage, .addInitScript],
        output := [], launched := 1, terminated := 1, browserOpen := false,
        writes := [] }
  | .waitIdle =>
      { events := [.launch, .newContext, .newPage, .addInitScript,
                   .gotoStudio],
        output := [], launched := 1, terminated := 1, browserOpen := false,
        writes := [] }
  | .screenshot =>
      { events := [.launch, .newContext, .newPage, .addInitScript,
                   .gotoStudio, .waitIdle],
        output := [], launched := 1, terminated := 1, browserOpen := false,
        writes := [] }
  | .assertTipVisible =>
      { events := [.launch, .newContext, .newPage, .addInitScript,
                   .gotoStudio, .waitIdle, .screenshot],
        output := [], launched := 1, terminated := 1, browserOpen := false,
        writes := [(screenshotPath, d)] }
  | .clickTheory =>
      { events := [.launch, .newContext, .newPage, .addInitScript,
                   .gotoStudio, .waitIdle, .screenshot, .assertTipVisible],
        output := [.verifiedTip], launched := 1, terminated := 1,
        browserOpen := false, writes := [(screenshotPath, d)] }
  | .assertNoteCVisible =>
      { events := [.launch, .newContext, .newPage, .addInitScript,
                   .gotoStudio, .waitIdle, .screenshot, .assertTipVisible,
                   .clickTheory],
        output := [.verifiedTip], launched := 1, terminated := 1,
        browserOpen := false, writes := [(screenshotPath, d)] }
  | .assertNoteCPressed =>
      { events := [.launch, .newContext, .newPage, .addInitScript,
                   .gotoStudio, .waitIdle, .screenshot, .assertTipVisible,
                   .clickTheory, .assertNoteCVisible],
        output := [.verifiedTip], launched := 1, terminated := 1,
        browserOpen := false, writes := [(screenshotPath, d)] }
  | .closeBrowser =>
      { events := [.launch, .newContext, .newPage, .addInitScript,
                   .gotoStudio, .waitIdle, .screenshot, .assertTipVisible,
                   .clickTheory, .assertNoteCVisible, .assertNoteCPressed],
        output := [.verifiedTip, .verifiedPiano], launched := 1,
        terminated := 1, browserOpen := false,
        writes := [(screenshotPath, d)] }

/-- The observable state after a fully successful run of
`verify_studio_accessibility`. -/
def okState (d : Nat) : St :=
  { events := fullOrder, output := [.verifiedTip, .verifiedPiano],
    launched := 1, terminated := 1, browserOpen := false,
    writes := [(screenshotPath, d)] }

/-- The three `expect` assertion steps. -/
def assertionSteps : List StepId :=
  [.assertTipVisible, .assertNoteCVisible, .assertNoteCPressed]

/-- The steps that run strictly before the screenshot step. -/
def preScreenshotSteps : List StepId :=
  [.launch, .newContext, .newPage, .addInitScript, .gotoStudio, .waitIdle]

/-- The write list leaves the path holding the given content whatever the
initial filesystem held there. -/
def overwrites (ws : List (String × Nat)) (p : String) (d : Nat) : Prop :=
  ∀ fs : String → Option Nat, finalFS fs ws p = some d

/-- Environment of a fully successful run: every Playwright call succeeds
and the page exposes the expected accessibility state. -/
def envAllOk : Env :=
  { launchRes := none, newContextRes := none, newPageRes := none,
    addInitScriptRes := none, gotoRes := none, waitIdleRes := none,
    screenshotRes := none, screenshotData := 0, tipButtonVisible := true,
    theoryClickRes := none, noteCVisible := true,
    noteCAriaPressed := some "false" }

/-- Environment in which the browser launch itself raises. -/
def envLaunchFail : Env :=
  { envAllOk with launchRes := some (.exc "browser executable not found") }

/-- Environment in which navigation to the studio URL raises. -/
def envGotoFail : Env :=
  { envAllOk with gotoRes := some (.exc "net::ERR_CONNECTION_REFUSED") }

/-- Environment in which the production-tip button is not visible. -/
def envTipInvisible : Env := { envAllOk with tipButtonVisible := false }

/-- Environment in which the Note C element is not visible. -/
def envNoteCInvisible : Env := { envAllOk with noteCVisible := false }

/-- Environment in which a KeyboardInterrupt arrives during launch. -/
def envInterrupted : Env :=
  { envAllOk with launchRes := some (.nonExc "KeyboardInterrupt") }

/-- Characterization of every exceptional run: the state carried out of
`verify_studio_accessibility` by a raised exception is determined by the
raise site and the screenshot content, the launch call succeeds exactly
when the raise site is a later step, and `browser.close()` never
raises. -/
theorem verify_raised_eq (env : Env) (sid : StepId) (k : ExcKind) (st : St)
    (h : verify_studio_accessibility env = .raised sid k st) :
    st = raisedState sid env.screenshotData ∧
    (env.launchRes = none ↔ sid ≠ .launch) ∧ sid ≠ .closeBrowser := by
  obtain ⟨lr, cr, pr, ar, gr, wr, sr, sd, tv, tc, nv, np⟩ := env
  cases lr with
  | some k0 =>
    simp only [verify_studio_accessibility, scriptBody, stopPlaywright, St.init,
      ScriptOutcome.raised.injEq] at h
    obtain ⟨rfl, rfl, rfl⟩ := h
    exact ⟨rfl, by simp, by decide⟩
  | none =>
  cases cr with
  | some k0 =>
    simp only [verify_studio_accessibility, scriptBody, stopPlaywright, St.init,
      ScriptOutcome.raised.injEq] at h
    obtain ⟨rfl, rfl, rfl⟩ := h
    exact ⟨rfl, by simp, by decide⟩
  | none =>
  cases pr with
  | some k0 =>
    simp only [verify_studio_accessibility, scriptBody, stopPlaywright, St.init,
      ScriptOutcome.raised.injEq] at h
    obtain ⟨rfl, rfl, rfl⟩ := h
    exact ⟨rfl, by simp, by decide⟩
  | none =>
  cases ar with
  | some k0 =>
    simp only [verify_studio_accessibility, scriptBody, stopPlaywright, St.init,
      ScriptOutcome.raised.injEq] at h
    obtain ⟨rfl, rfl, rfl⟩ := h
    exact ⟨rfl, by simp, by decide⟩
  | none =>
  cases gr with
  | some k0 =>
    simp only [verify_studio_accessibility, scriptBody, stopPlaywright, St.init,
      ScriptOutcome.raised.injEq] at h
    obtain ⟨rfl, rfl, rfl⟩ := h
    exact ⟨rfl, by simp, by decide⟩
  | none =>
  cases wr with
  | some k0 =>
    simp only [verify_studio_accessibility, scriptBody, stopPlaywright, St.init,
      ScriptOutcome.raised.injEq] at h
    obtain ⟨rfl, rfl, rfl⟩ := h
    exact ⟨rfl, by simp, by decide⟩
  | none =>
  cases sr with
  | some k0 =>
    simp only [verify_studio_accessibility, scriptBody, stopPlaywright, St.init,
      ScriptOutcome.raised.injEq] at h
    obtain ⟨rfl, rfl, rfl⟩ := h
    exact ⟨rfl, by simp, by decide⟩
  | none =>
  cases tv with
  | false =>
    simp only [verify_studio_accessibility, scriptBody, stopPlaywright, St.init,
      ScriptOutcome.raised.injEq] at h
    obtain ⟨rfl, rfl, rfl⟩ := h
    exact ⟨rfl, by simp, by decide⟩
  | true =>
  cases tc with
  | some k0 =>
    simp only [verify_studio_accessibility, scriptBody, stopPlaywright, St.init,
      ScriptOutcome.raised.injEq] at h
    obtain ⟨rfl, rfl, rfl⟩ := h
    exact ⟨rfl, by simp, by decide⟩
  | none =>
  cases nv with
  | false =>
    simp only [verify_studio_accessibility, scriptBody, stopPlaywright, St.init,
      ScriptOutcome.raised.injEq] at h
    obtain ⟨rfl, rfl, rfl⟩ := h
    exact ⟨rfl, by simp, by decide⟩
  | true =>
    by_cases hc : np = some "false"
    · simp [verify_studio_accessibility, scriptBody, stopPlaywright, St.init,
        hc] at h
    · simp only [verify_studio_accessibility, scriptBody, stopPlaywright,
        St.init, if_neg hc, ScriptOutcome.raised.injEq] at h
      obtain ⟨rfl, rfl, rfl⟩ := h
      exact ⟨rfl, by simp, by decide⟩

/-- Characterization of every normal run: `verify_studio_accessibility`
returns normally only from the fully successful environment, with the
complete step sequence, both confirmation lines, one browser acquired and
released, and the single screenshot write. -/
theorem verify_normal_eq (env : Env) (st : St)
    (h : verify_studio_accessibility env = .normal st) :
    st = okState env.screenshotData ∧ env.allOk := by
  obtain ⟨lr, cr, pr, ar, gr, wr, sr, sd, tv, tc, nv, np⟩ := env
  cases lr with
  | some k0 =>
    simp [verify_studio_accessibility, scriptBody, stopPlaywright, St.init] at h
  | none =>
  cases cr with
  | some k0 =>
    simp [verify_studio_accessibility, scriptBody, stopPlaywright, St.init] at h
  | none =>
  cases pr with
  | some k0 =>
    simp [verify_studio_accessibility, scriptBody, stopPlaywright, St.init] at h
  | none =>
  cases ar with
  | some k0 =>
    simp [verify_studio_accessibility, scriptBody, stopPlaywright, St.init] at h
  | none =>
  cases gr with
  | some k0 =>
    simp [verify_studio_accessibility, scriptBody, stopPlaywright, St.init] at h
  | none =>
  cases wr with
  | some k0 =>
    simp [verify_studio_accessibility, scriptBody, stopPlaywright, St.init] at h
  | none =>
  cases sr with
  | some k0 =>
    simp [verify_studio_accessibility, scriptBody, stopPlaywright, St.init] at h
  | none =>
  cases tv with
  | false =>
    simp [verify_studio_accessibility, scriptBody, stopPlaywright, St.init] at h
  | true =>
  cases tc with
  | some k0 =>
    simp [verify_studio_accessibility, scriptBody, stopPlaywright, St.init] at h
  | none =>
  cases nv with
  | false =>
    simp [verify_studio_accessibility, scriptBody, stopPlaywright, St.init] at h
  | true =>
    by_cases hc : np = some "false"
    · simp only [verify_studio_accessibility, scriptBody, stopPlaywright,
        St.init, if_pos hc, ScriptOutcome.normal.injEq] at h
      subst h
      subst hc
      refine ⟨rfl, ?_⟩
      exact ⟨rfl, rfl, rfl, rfl, rfl, rfl, rfl, rfl, rfl, rfl, rfl⟩
    · simp [verify_studio_accessibility, scriptBody, stopPlaywright, St.init,
        if_neg hc] at h

/-- Claim C1: when all ten behavior steps succeed, the process prints the
two step-confirmation lines in order, then the SUCCESS line, and exits
with status 0. -/
theorem c1_full_success (env : Env) (h : env.allOk) :
    (mainRun env).output = [Line.verifiedTip, Line.verifiedPiano, Line.success] ∧
    (mainRun env).output.map Line.render =
      ["Verified: Production Tip button has correct ARIA label",
       "Verified: Piano Key (C) exists and has correct attributes",
       "SUCCESS: Accessibility verification passed."] ∧
    (mainRun env).exitStatus = .code 0 := by
  obtain ⟨h1, h2, h3, h4, h5, h6, h7, h8, h9, h10, h11⟩ := h
  simp [mainRun, verify_studio_accessibility, scriptBody, stopPlaywright,
    St.init, Line.render, h1, h2, h3, h4, h5, h6, h7, h8, h9, h10, h11]

/-- Witness for C1 at a concrete fully successful environment. -/
theorem c1_full_success_witness :
    envAllOk.allOk ∧
    ((mainRun envAllOk).output = [Line.verifiedTip, Line.verifiedPiano, Line.success] ∧
     (mainRun envAllOk).output.map Line.render =
       ["Verified: Production Tip button has correct ARIA label",
        "Verified: Piano Key (C) exists and has correct attributes",
        "SUCCESS: Accessibility verification passed."] ∧
     (mainRun envAllOk).exitStatus = .code 0) :=
  ⟨⟨rfl, rfl, rfl, rfl, rfl, rfl, rfl, rfl, rfl, rfl, rfl⟩,
   c1_full_success envAllOk
     ⟨rfl, rfl, rfl, rfl, rfl, rfl, rfl, rfl, rfl, rfl, rfl⟩⟩

/-- Claim C2: every exception derived from Exception that escapes
`verify_studio_accessibility` is caught once at the top level: the output
is the output so far followed by exactly one FAILURE line embedding the
exception description, and the process exits with status 1; nothing is
retried after the failure line. -/
theorem c2_single_failure_line (env : Env) (sid : StepId) (msg : String)
    (st : St)
    (h : verify_studio_accessibility env = .raised sid (.exc msg) st) :
    (mainRun env).output = st.output ++ [Line.failure msg] ∧
    (mainRun env).output.filter Line.isFailure = [Line.failure msg] ∧
    (Line.failure msg).render = "FAILURE: " ++ msg ∧
    (mainRun env).exitStatus = .code 1 := by
  obtain ⟨rfl, -, -⟩ := verify_raised_eq env sid (.exc msg) st h
  cases sid <;>
    simp [mainRun, h, raisedState, Line.isFailure, Line.render]

/-- Witness for C2 at a run failing the tip-button visibility assertion. -/
theorem c2_single_failure_line_witness :
    verify_studio_accessibility envTipInvisible =
      .raised .assertTipVisible (.exc tipVisibleFailMsg)
        (raisedState .assertTipVisible 0) ∧
    ((mainRun envTipInvisible).output =
       (raisedState .assertTipVisible 0).output ++ [Line.failure tipVisibleFailMsg] ∧
     (mainRun envTipInvisible).output.filter Line.isFailure =
       [Line.failure tipVisibleFailMsg] ∧
     (Line.failure tipVisibleFailMsg).render = "FAILURE: " ++ tipVisibleFailMsg ∧
     (mainRun envTipInvisible).exitStatus = .code 1) :=
  ⟨rfl,
   c2_single_failure_line envTipInvisible .assertTipVisible tipVisibleFailMsg
     (raisedState .assertTipVisible 0) rfl⟩

/-- Claim C3 counterexample: in the invocation where the browser launch
itself raises, zero browser processes are acquired and zero are released,
so it is not the case that every invocation acquires and releases exactly
one browser. -/
theorem c3_counterexample :
    ¬ ((mainRun envLaunchFail).launched = 1 ∧
       (mainRun envLaunchFail).terminated = 1) := by decide

/-- Claim C3 as amended: in every invocation the number of browsers
released equals the number acquired, and exactly one browser is acquired
(and hence released, on every exit path) precisely when the launch call
succeeds. -/
theorem c3_browser_release (env : Env) :
    (mainRun env).terminated = (mainRun env).launched ∧
    (mainRun env).launched = (if env.launchRes = none then 1 else 0) := by
  cases hv : verify_studio_accessibility env with
  | normal st =>
    obtain ⟨rfl, hok⟩ := verify_normal_eq env st hv
    have hl : env.launchRes = none := hok.1
    simp [mainRun, hv, okState, hl]
  | raised sid k st =>
    obtain ⟨rfl, hiff, -⟩ := verify_raised_eq env sid k st hv
    by_cases hl : sid = StepId.launch
    · subst hl
      have hn : ¬ env.launchRes = none := fun hc => (hiff.mp hc) rfl
      cases k with
      | exc m => simp [mainRun, hv, raisedState, hn]
      | nonExc m => simp [mainRun, hv, raisedState, hn]
    · have hn : env.launchRes = none := hiff.mpr hl
      cases k <;>
        simp only [mainRun, hv, if_pos hn] <;>
        refine ⟨?_, ?_⟩ <;>
        cases sid <;>
        first | exact absurd rfl hl | rfl

/-- Claim C4: whenever one of the three assertions raises and
short-circuits the run, the screenshot has already been written to the
fixed path at the moment of the raise, and that write leaves the path
holding the screenshot content whatever the filesystem held there
before. -/
theorem c4_screenshot_before_assertion (env : Env) (sid : StepId)
    (k : ExcKind) (st : St)
    (h : verify_studio_accessibility env = .raised sid k st)
    (hsid : sid ∈ assertionSteps) :
    st.writes = [(screenshotPath, env.screenshotData)] ∧
    overwrites st.writes screenshotPath env.screenshotData := by
  obtain ⟨rfl, -, -⟩ := verify_raised_eq env sid k st h
  fin_cases hsid <;>
    exact ⟨rfl, fun fs => by simp [finalFS, writeFile, raisedState]⟩

/-- Witness for C4 at a run failing the tip-button visibility assertion. -/
theorem c4_screenshot_before_assertion_witness :
    verify_studio_accessibility envTipInvisible =
      .raised .assertTipVisible (.exc tipVisibleFailMsg)
        (raisedState .assertTipVisible 0) ∧
    StepId.assertTipVisible ∈ assertionSteps ∧
    ((raisedState .assertTipVisible 0).writes =
       [(screenshotPath, envTipInvisible.screenshotData)] ∧
     overwrites (raisedState .assertTipVisible 0).writes screenshotPath
       envTipInvisible.screenshotData) :=
  ⟨rfl, by decide,
   c4_screenshot_before_assertion envTipInvisible .assertTipVisible
     (.exc tipVisibleFailMsg) (raisedState .assertTipVisible 0) rfl
     (by decide)⟩

/-- Claim C5 counterexample: in the invocation where navigation raises,
the run writes no file at all, so it is not the case that every
invocation writes exactly one image file. -/
theorem c5_counterexample :
    ¬ ((mainRun envGotoFail).writes.length = 1) := by decide

/-- Claim C5 as amended: every invocation writes at most one file; any
write is the full-page screenshot at the fixed path with the screenshot
content; the single write happens exactly when the screenshot step
completes, and it overwrites whatever the initial filesystem held at the
path while leaving the rest of the filesystem untouched. -/
theorem c5_writes_characterization (env : Env) :
    ((mainRun env).writes = [] ∨
     (mainRun env).writes = [(screenshotPath, env.screenshotData)]) ∧
    ((mainRun env).writes = [(screenshotPath, env.screenshotData)] ↔
      StepId.screenshot ∈ (mainRun env).events) ∧
    (∀ fs : String → Option Nat,
      finalFS fs (mainRun env).writes =
        if StepId.screenshot ∈ (mainRun env).events
        then writeFile fs screenshotPath env.screenshotData
        else fs) := by
  cases hv : verify_studio_accessibility env with
  | normal st =>
    obtain ⟨rfl, -⟩ := verify_normal_eq env st hv
    refine ⟨Or.inr ?_, ?_, ?_⟩
    · simp [mainRun, hv, okState]
    · simp [mainRun, hv, okState, fullOrder]
    · intro fs
      simp only [mainRun, hv, okState]
      rw [if_pos (by decide)]
      rfl
  | raised sid k st =>
    obtain ⟨rfl, -, -⟩ := verify_raised_eq env sid k st hv
    cases k <;> simp only [mainRun, hv] <;> cases sid <;>
      refine ⟨?_, ?_, fun fs => ?_⟩ <;>
      first
        | exact Or.inl rfl
        | exact Or.inr rfl
        | (simp [raisedState, finalFS, writeFile])

/-- Claim C6: when the production-tip button is absent or not visible in
a run that reaches its assertion, the process prints the FAILURE line and
exits with status 1 without ever printing the piano-key confirmation
line. -/
theorem c6_tip_button_failure (env : Env)
    (h1 : env.launchRes = none) (h2 : env.newContextRes = none)
    (h3 : env.newPageRes = none) (h4 : env.addInitScriptRes = none)
    (h5 : env.gotoRes = none) (h6 : env.waitIdleRes = none)
    (h7 : env.screenshotRes = none) (h8 : env.tipButtonVisible = false) :
    (mainRun env).exitStatus = .code 1 ∧
    (mainRun env).output = [Line.failure tipVisibleFailMsg] ∧
    Line.verifiedPiano ∉ (mainRun env).output := by
  simp [mainRun, verify_studio_accessibility, scriptBody, stopPlaywright,
    St.init, h1, h2, h3, h4, h5, h6, h7, h8]

/-- Witness for C6 at a concrete environment with an invisible tip
button. -/
theorem c6_tip_button_failure_witness :
    (mainRun envTipInvisible).exitStatus = .code 1 ∧
    (mainRun envTipInvisible).output = [Line.failure tipVisibleFailMsg] ∧
    Line.verifiedPiano ∉ (mainRun envTipInvisible).output :=
  c6_tip_button_failure envTipInvisible rfl rfl rfl rfl rfl rfl rfl rfl

/-- Claim C7: when, after the Theory tab is clicked, the Note C element
is not visible or its aria-pressed attribute differs from false, the
process exits with status 1. -/
theorem c7_note_c_failure (env : Env)
    (h1 : env.launchRes = none) (h2 : env.newContextRes = none)
    (h3 : env.newPageRes = none) (h4 : env.addInitScriptRes = none)
    (h5 : env.gotoRes = none) (h6 : env.waitIdleRes = none)
    (h7 : env.screenshotRes = none) (h8 : env.tipButtonVisible = true)
    (h9 : env.theoryClickRes = none)
    (h10 : env.noteCVisible = false ∨ env.noteCAriaPressed ≠ some "false") :
    (mainRun env).exitStatus = .code 1 := by
  rcases h10 with h10 | h10
  · simp [mainRun, verify_studio_accessibility, scriptBody, stopPlaywright,
      St.init, h1, h2, h3, h4, h5, h6, h7, h8, h9, h10]
  · cases hnv : env.noteCVisible with
    | false =>
      simp [mainRun, verify_studio_accessibility, scriptBody, stopPlaywright,
        St.init, h1, h2, h3, h4, h5, h6, h7, h8, h9, hnv]
    | true =>
      simp [mainRun, verify_studio_accessibility, scriptBody, stopPlaywright,
        St.init, h1, h2, h3, h4, h5, h6, h7, h8, h9, hnv, h10]

/-- Witness for C7 at a concrete environment with an invisible Note C
element. -/
theorem c7_note_c_failure_witness :
    (mainRun envNoteCInvisible).exitStatus = .code 1 :=
  c7_note_c_failure envNoteCInvisible rfl rfl rfl rfl rfl rfl rfl rfl rfl
    (Or.inl rfl)

/-- Claim C8: in every run the recorded steps occur in the specified
order: init-script registration before navigation, navigation before the
network-idle wait, and the network-idle wait before the screenshot and
before each of the three assertions. -/
theorem c8_step_order (env : Env) :
    precedesIn (mainRun env).events .addInitScript .gotoStudio ∧
    precedesIn (mainRun env).events .gotoStudio .waitIdle ∧
    precedesIn (mainRun env).events .waitIdle .screenshot ∧
    precedesIn (mainRun env).events .waitIdle .assertTipVisible ∧
    precedesIn (mainRun env).events .waitIdle .assertNoteCVisible ∧
    precedesIn (mainRun env).events .waitIdle .assertNoteCPressed := by
  cases hv : verify_studio_accessibility env with
  | normal st =>
    obtain ⟨rfl, -⟩ := verify_normal_eq env st hv
    simp only [mainRun, hv, okState, precedesIn]
    decide
  | raised sid k st =>
    obtain ⟨rfl, -, -⟩ := verify_raised_eq env sid k st hv
    cases k <;> simp only [mainRun, hv] <;> cases sid <;>
      simp only [raisedState, precedesIn] <;> decide

/-- Claim C9: when an exception derived from Exception is raised at one
of the six steps preceding the screenshot, the run exits with status 1
and no file has been written. -/
theorem c9_no_artifact_on_early_failure (env : Env) (sid : StepId)
    (msg : String) (st : St)
    (h : verify_studio_accessibility env = .raised sid (.exc msg) st)
    (hsid : sid ∈ preScreenshotSteps) :
    (mainRun env).exitStatus = .code 1 ∧ (mainRun env).writes = [] ∧
    st.writes = [] := by
  obtain ⟨rfl, -, -⟩ := verify_raised_eq env sid (.exc msg) st h
  fin_cases hsid <;> simp [mainRun, h, raisedState]

/-- Witness for C9 at a run whose navigation step raises. -/
theorem c9_no_artifact_on_early_failure_witness :
    verify_studio_accessibility envGotoFail =
      .raised .gotoStudio (.exc "net::ERR_CONNECTION_REFUSED")
        (raisedState .gotoStudio 0) ∧
    StepId.gotoStudio ∈ preScreenshotSteps ∧
    ((mainRun envGotoFail).exitStatus = .code 1 ∧
     (mainRun envGotoFail).writes = [] ∧
     (raisedState .gotoStudio 0).writes = []) :=
  ⟨rfl, by decide,
   c9_no_artifact_on_early_failure envGotoFail .gotoStudio
     "net::ERR_CONNECTION_REFUSED" (raisedState .gotoStudio 0) rfl
     (by decide)⟩

/-- Claim C10: an exception not derived from Exception propagates past
the top-level handler: the process terminates with that uncaught
exception rather than exit status 1, and no FAILURE line is printed. -/
theorem c10_nonexception_uncaught (env : Env) (sid : StepId) (msg : String)
    (st : St)
    (h : verify_studio_accessibility env = .raised sid (.nonExc msg) st) :
    (mainRun env).exitStatus = .uncaught msg ∧
    (mainRun env).exitStatus ≠ .code 1 ∧
    (mainRun env).output.filter Line.isFailure = [] := by
  obtain ⟨rfl, -, -⟩ := verify_raised_eq env sid (.nonExc msg) st h
  cases sid <;> simp [mainRun, h, raisedState, Line.isFailure]

/-- Witness for C10 at a run interrupted by KeyboardInterrupt during
launch. -/
theorem c10_nonexception_uncaught_witness :
    verify_studio_accessibility envInterrupted =
      .raised .launch (.nonExc "KeyboardInterrupt")
        (raisedState .launch 0) ∧
    ((mainRun envInterrupted).exitStatus = .uncaught "KeyboardInterrupt" ∧
     (mainRun envInterrupted).exitStatus ≠ .code 1 ∧
     (mainRun envInterrupted).output.filter Line.isFailure = []) :=
  ⟨rfl,
   c10_nonexception_uncaught envInterrupted .launch "KeyboardInterrupt"
     (raisedState .launch 0) rfl⟩
